import Mathlib

/-!
Shallow embedding of the coffee-sales dashboard (`src/dashboard.py`) and proofs
about its filtering, season derivation, feature engineering, train/test split,
OLS model fitting, prediction and evaluation pipeline.

Conventions of the embedding:
* A loaded transaction row (after `load_data`, lines 85-119) is a `Txn`; the
  calendar fields (`hour`, `month`, `day_of_week`, `year`) are stored directly,
  standing for the values pandas derives from the parsed timestamp.
* Monetary amounts and numeric features are rationals (`ℚ`); quantities that the
  Python code computes with transcendental functions (`np.log1p`, `np.expm1`,
  `np.sqrt` of a variance) live in `ℝ`.
* pandas one-hot columns named `f"{field}_{value}"` are embedded as the
  structured constructor `Col.dummy field value`.  The four encoded fields
  (`coffee_name`, `Time_of_Day`, `Year`, `Season`) and the checked-but-absent
  `cash_type` are pairwise non-prefix strings, so the pairing is faithful to the
  flat string names used by pandas.
* `np.random.seed(42)` followed by `np.random.permutation(n)` (lines 657-658) is
  an external-library call; it is modelled by `npPermutation`, a deterministic
  seeded Fisher-Yates-style permutation driven by a linear congruential
  generator.  Only its contract matters for the claims: it is a pure function of
  (seed, n) and produces a permutation of `range n`.
* `sm.OLS(y_train, x_train).fit()` (statsmodels, line 669) is an external
  library call; a fitted model is any coefficient vector minimizing the residual
  sum of squares on the training data (`IsOLSFit`), which is the documented
  contract of OLS.
-/

/-- A transaction row as produced by `load_data` (dashboard.py lines 85-119).
`dateOrd` is the calendar date as an ordinal number (only order matters for the
date-range filter).  `hour`, `month`, `day_of_week`, `year` are the integer
fields pandas derives from the parsed `datetime` (lines 97-102). -/
structure Txn where
  dateOrd : Nat
  coffee_name : String
  cash_type : String
  timeOfDay : String
  money : ℚ
  hour : Nat
  day_of_week : Nat
  month : Nat
  year : Nat
  deriving DecidableEq

/-- `get_season` (dashboard.py lines 104-112), used by `load_data` to derive the
`season` column that the sidebar season filter consumes. -/
def get_season (month : Nat) : String :=
  if month = 12 ∨ month = 1 ∨ month = 2 then "Winter"
  else if month = 3 ∨ month = 4 ∨ month = 5 then "Spring"
  else if month = 6 ∨ month = 7 ∨ month = 8 then "Summer"
  else "Fall"

/-- The month-to-season dictionary `.map` of the Model Analysis tab
(dashboard.py lines 618-623).  A pandas `.map` with a dict yields `NaN` for
keys outside the dict, embedded here as `none`. -/
def seasonMap (m : Nat) : Option String :=
  if m = 12 ∨ m = 1 ∨ m = 2 then some "Winter"
  else if m = 3 ∨ m = 4 ∨ m = 5 then some "Spring"
  else if m = 6 ∨ m = 7 ∨ m = 8 then some "Summer"
  else if m = 9 ∨ m = 10 ∨ m = 11 then some "Autumn"
  else none

/-- The prediction-time season computation (dashboard.py line 699). -/
def predSeason (m : Nat) : String :=
  if m = 12 ∨ m = 1 ∨ m = 2 then "Winter"
  else if m = 3 ∨ m = 4 ∨ m = 5 then "Spring"
  else if m = 6 ∨ m = 7 ∨ m = 8 then "Summer"
  else "Fall"

/-- The numeric model features `numerical_cols = ["hour", "day_of_week", "month"]`
(dashboard.py line 630). -/
inductive NumFeat where
  | hour
  | dayOfWeek
  | monthF
  deriving DecidableEq

/-- Value of a numeric feature on a row. -/
def numVal (r : Txn) : NumFeat → ℚ
  | .hour => r.hour
  | .dayOfWeek => r.day_of_week
  | .monthF => r.month

/-- A numeric column of `df_model` (the whole modeling dataframe). -/
def colVals (d : List Txn) (f : NumFeat) : List ℚ := d.map (numVal · f)

/-- pandas `.mean()` of a column. -/
def meanQ (l : List ℚ) : ℚ := l.sum / l.length

/-- pandas `.std()` squared: the sample variance with `ddof = 1` denominator
`n - 1`.  The code divides by `std = sqrt` of this; statistics are carried as
(mean, variance) pairs so that they stay rational and comparable.  (For a
constant or singleton column pandas produces `NaN`/`0` here; that degenerate
regime is not exercised by any theorem below.) -/
def varSample (l : List ℚ) : ℚ :=
  (l.map (fun x => (x - meanQ l) ^ 2)).sum / ((l.length : ℚ) - 1)

/-- The categorical value a row contributes to a one-hot field: the string
pandas would append after `f"{field}_"`.  `Year` is the year as a string
(line 616), `Season` comes from the dict `.map` of lines 618-623. -/
def fieldVal (r : Txn) : String → Option String
  | "coffee_name" => some r.coffee_name
  | "Time_of_Day" => some r.timeOfDay
  | "cash_type" => some r.cash_type
  | "Year" => some (toString r.year)
  | "Season" => seasonMap r.month
  | _ => none

/-- Lexicographic comparison of character lists (the order underlying string
comparison). -/
def charListLe : List Char → List Char → Bool
  | [], _ => true
  | _ :: _, [] => false
  | a :: as, b :: bs => if a < b then true else if b < a then false else charListLe as bs

/-- Lexicographic string comparison. -/
def strLe (a b : String) : Bool := charListLe a.data b.data

/-- Insert into a sorted list of strings (ascending). -/
def insertStr (a : String) : List String → List String
  | [] => [a]
  | b :: l => if strLe a b then a :: b :: l else b :: insertStr a l

/-- Ascending insertion sort on strings; models the sorted category order
`pd.get_dummies` uses for its columns. -/
def sortStrings : List String → List String
  | [] => []
  | a :: l => insertStr a (sortStrings l)

/-- A column of the feature matrix `X_final`: the intercept `const` added by
`sm.add_constant` (line 651), a standardized numeric column, or a one-hot
indicator column `f"{field}_{value}"` from `pd.get_dummies` (line 637). -/
inductive Col where
  | const
  | num (f : NumFeat)
  | dummy (field : String) (value : String)
  deriving DecidableEq

/-- `categorical_cols = ['coffee_name', 'Time_of_Day', 'Year', 'Season']`
(dashboard.py line 629).  All four are always present on `df_model`, so the
`col in df_model.columns` guard of line 633 keeps the list unchanged. -/
def catFields : List String := ["coffee_name", "Time_of_Day", "Year", "Season"]

/-- The numeric columns, in the source order of line 630. -/
def numericalCols : List NumFeat := [.hour, .dayOfWeek, .monthF]

/-- One-hot columns `pd.get_dummies(..., drop_first=True)` produces for one
field: the sorted distinct observed values minus the first (the dropped
reference level), each becoming an indicator column. -/
def dummyColsFor (d : List Txn) (f : String) : List Col :=
  ((sortStrings (d.filterMap (fieldVal · f)).dedup).drop 1).map (Col.dummy f)

/-- Columns of `X_combined = pd.concat([X_num, X_cat], axis=1)` (line 645):
numeric columns first, then the dummy blocks in `categorical_cols` order. -/
def rawCombinedCols (d : List Txn) : List Col :=
  numericalCols.map Col.num ++ catFields.flatMap (dummyColsFor d)

/-- The column-keeping predicate of line 648,
`X_combined.loc[:, (X_combined != 0).any(axis=0)]`, expressed on the raw data:
a dummy column has a nonzero entry iff its value occurs in some row; a
standardized numeric column on a nonempty dataframe always survives (either it
is non-constant and some entry `(x - mean)/std` is nonzero, or it is
constant/singleton and its entries are pandas `NaN`, which compares `!= 0` as
True); on an empty dataframe `.any` is False for every column. -/
def keepCol (d : List Txn) : Col → Bool
  | .const => true
  | .num _ => !d.isEmpty
  | .dummy f v => d.any fun r => decide (fieldVal r f = some v)

/-- The training column schema `x_train.columns` = columns of
`X_final = sm.add_constant(X_combined)` after the all-zero-column drop:
`const` first (add_constant prepends), then the surviving combined columns. -/
def trainSchema (d : List Txn) : List Col :=
  Col.const :: (rawCombinedCols d).filter (keepCol d)

/-- One step of a linear congruential generator (numerical-recipes constants),
driving the modelled pseudo-random permutation. -/
def lcgNext (s : Nat) : Nat := (1664525 * s + 1013904223) % 4294967296

/-- Modelled from the spec: `np.random.permutation(n)` after
`np.random.seed(seed)` (dashboard.py lines 657-658) is an external library
call; the spec describes it as "a fixed pseudo-random permutation seeded
deterministically".  `drawPerm` draws without replacement from the pool,
selecting each next element with the LCG stream; the exact MT19937 stream of
numpy is not reproduced, only the deterministic seeded-permutation contract. -/
def drawPerm : Nat → Nat → List Nat → List Nat
  | 0, _, _ => []
  | fuel + 1, s, pool =>
    pool.getD (lcgNext s % pool.length) 0 ::
      drawPerm fuel (lcgNext s) (pool.eraseIdx (lcgNext s % pool.length))

/-- The modelled seeded permutation of `range n` (see `drawPerm`). -/
def npPermutation (seed n : Nat) : List Nat := drawPerm n seed (List.range n)

/-- `train_size = int(0.8 * n)` (line 655): the floor of 0.8·n. -/
def train_size (n : Nat) : Nat := 4 * n / 5

/-- `train_idx = idx[:train_size]` (line 659) for the seed-42 permutation. -/
def trainIdxOf (n : Nat) : List Nat := (npPermutation 42 n).take (train_size n)

/-- `test_idx = idx[train_size:]` (line 659) for the seed-42 permutation. -/
def testIdxOf (n : Nat) : List Nat := (npPermutation 42 n).drop (train_size n)

/-- The (mean, variance) statistics the featurization step uses (line 643):
`(df_model[numerical_cols] - df_model[numerical_cols].mean()) / df_model[numerical_cols].std()`
— computed over the whole `df_model`, before the train/test split. -/
def featStats (d : List Txn) (f : NumFeat) : ℚ × ℚ :=
  (meanQ (colVals d f), varSample (colVals d f))

/-- The (mean, variance) statistics the prediction path recomputes
(lines 716-717): `mean_val = df_model[col].mean(); std_val = df_model[col].std()`
— again over the whole `df_model`. -/
def predStats (d : List Txn) (f : NumFeat) : ℚ × ℚ :=
  (meanQ (colVals d f), varSample (colVals d f))

instance : Inhabited Txn := ⟨⟨0, "", "", "", 0, 0, 0, 0, 0⟩⟩

/-- Definition written from the spec's words for claim C4 ("statistics computed
once over the training population", i.e. the 80% train partition): the numeric
column restricted to the train rows.  The code (lines 643, 716-717) instead
uses the whole `df_model`; this definition exists only to compare the spec's
claimed statistics source with the code's. -/
def trainColVals (d : List Txn) (f : NumFeat) : List ℚ :=
  (trainIdxOf d.length).map fun i => numVal (d.getD i default) f

/-- The (mean, variance) pair the spec's words prescribe for claim C4. -/
def trainStatsSpec (d : List Txn) (f : NumFeat) : ℚ × ℚ :=
  (meanQ (trainColVals d f), varSample (trainColVals d f))

/-- Row lookup by positional index (pandas `.iloc`). -/
def getRow (d : List Txn) (i : Nat) : Txn := d.getD i default

/-- A standardized numeric entry `(x - mean) / std` with `std = sqrt variance`
(pandas `.std()` is the square root of the `ddof = 1` variance). -/
noncomputable def stdEntry (x μ v : ℚ) : ℝ :=
  ((x : ℝ) - (μ : ℝ)) / Real.sqrt (v : ℝ)

/-- Entry of the engineered feature matrix `X_final` for row `r` and column `c`:
intercept 1, standardized numeric value (with whole-dataset statistics, line
643), or one-hot indicator (line 637). -/
noncomputable def rowEntry (d : List Txn) (r : Txn) : Col → ℝ
  | .const => 1
  | .num f => stdEntry (numVal r f) (featStats d f).1 (featStats d f).2
  | .dummy f v => if fieldVal r f = some v then 1 else 0

/-- The feature row of `X_final` for one transaction, in schema order. -/
noncomputable def designRow (d : List Txn) (r : Txn) : List ℝ :=
  (trainSchema d).map (rowEntry d r)

/-- `x_train = X_final.iloc[train_idx]` (line 661). -/
noncomputable def trainMatrix (d : List Txn) : List (List ℝ) :=
  (trainIdxOf d.length).map fun i => designRow d (getRow d i)

/-- `x_test = X_final.iloc[test_idx]` (line 661). -/
noncomputable def testMatrix (d : List Txn) : List (List ℝ) :=
  (testIdxOf d.length).map fun i => designRow d (getRow d i)

/-- `np.log1p` (line 626): the log-transform of the target. -/
noncomputable def log1p (q : ℚ) : ℝ := Real.log (1 + (q : ℝ))

/-- `np.expm1` (line 726): the inverse transform applied to a prediction. -/
noncomputable def expm1 (x : ℝ) : ℝ := Real.exp x - 1

/-- `y_train = y.iloc[train_idx]` with `y = np.log1p(df_model["money"])`. -/
noncomputable def trainTargets (d : List Txn) : List ℝ :=
  (trainIdxOf d.length).map fun i => log1p (getRow d i).money

/-- `y_test = y.iloc[test_idx]`. -/
noncomputable def testTargets (d : List Txn) : List ℝ :=
  (testIdxOf d.length).map fun i => log1p (getRow d i).money

/-- Dot product of coefficient vector and feature row (`model.predict` is the
matrix product with the fitted parameter vector). -/
noncomputable def dotR (a b : List ℝ) : ℝ := (List.zipWith (· * ·) a b).sum

/-- The user-specified prediction record (widgets of lines 674-682). -/
structure PredInput where
  coffee : String
  cash : String
  timeOfDay : String
  year : Nat
  month : Nat
  dayOfWeek : Nat
  hour : Nat
  deriving DecidableEq

/-- The one-hot value the prediction path would set for a field: lines 692-703
set `input_df[f'{field}_{value}'] = 1` for exactly these (field, value) pairs
(after checking the column exists); the Season value is the line-699 season. -/
def inputField (inp : PredInput) : String → Option String
  | "coffee_name" => some inp.coffee
  | "Time_of_Day" => some inp.timeOfDay
  | "cash_type" => some inp.cash
  | "Year" => some (toString inp.year)
  | "Season" => some (predSeason inp.month)
  | _ => none

/-- Numeric value of the prediction record for a numeric feature
(`numerical_data`, lines 707-711). -/
def inputNum (inp : PredInput) : NumFeat → ℚ
  | .hour => inp.hour
  | .dayOfWeek => inp.dayOfWeek
  | .monthF => inp.month

/-- Value of the prediction input row `input_df` at a schema column: the row is
zero-initialized (line 688), `const` is set to 1 (line 689), each one-hot
column that matches the input's categorical values is set to 1 (lines 692-703,
each guarded by a membership check against `input_df.columns`), and numeric
columns are standardized with the recomputed whole-dataset statistics (lines
713-719). -/
noncomputable def predVal (d : List Txn) (inp : PredInput) : Col → ℝ
  | .const => 1
  | .num f => stdEntry (inputNum inp f) (predStats d f).1 (predStats d f).2
  | .dummy f v => if inputField inp f = some v then 1 else 0

/-- `input_df = input_df[x_train.columns]` (line 722): the prediction row in
training-schema order; only columns of the trained schema are referenced. -/
noncomputable def predictionRow (d : List Txn) (inp : PredInput) : List ℝ :=
  (trainSchema d).map (predVal d inp)

/-- `prediction = np.expm1(model.predict(input_df)[0])` (lines 725-726) for a
model with coefficient vector `β`. -/
noncomputable def predictAmount (d : List Txn) (β : List ℝ) (inp : PredInput) : ℝ :=
  expm1 (dotR β (predictionRow d inp))

/-- Residual sum of squares of a coefficient vector on a design matrix and
target vector. -/
noncomputable def rssR (X : List (List ℝ)) (ys : List ℝ) (β : List ℝ) : ℝ :=
  (List.zipWith (fun row y => (y - dotR β row) ^ 2) X ys).sum

/-- The contract of `sm.OLS(y_train, x_train).fit()` (line 669, statsmodels
external library; spec section 4.2: "solves for coefficient vector β minimizing
squared residual on the training partition"): `β` is a fitted model iff no
other coefficient vector has smaller training residual sum of squares. -/
def IsOLSFit (X : List (List ℝ)) (ys : List ℝ) (β : List ℝ) : Prop :=
  ∀ β', rssR X ys β ≤ rssR X ys β'

/-- `np.mean` of a vector. -/
noncomputable def meanR (l : List ℝ) : ℝ := l.sum / l.length

/-- `ssr = np.sum((y_test - y_pred)**2)` (line 735). -/
noncomputable def ssrOf (yTest yPred : List ℝ) : ℝ :=
  ((List.zipWith (· - ·) yTest yPred).map (· ^ 2)).sum

/-- `sst = np.sum((y_test - np.mean(y_test))**2)` (line 736). -/
noncomputable def sstOf (yTest : List ℝ) : ℝ :=
  ((yTest.map (fun y => y - meanR yTest)).map (· ^ 2)).sum

/-- `r2 = 1 - (ssr / sst)` (line 737) — no clamping. -/
noncomputable def r2Metric (yTest yPred : List ℝ) : ℝ :=
  1 - ssrOf yTest yPred / sstOf yTest

/-- `rmse = np.sqrt(np.mean((y_test - y_pred)**2))` (line 738). -/
noncomputable def rmseMetric (yTest yPred : List ℝ) : ℝ :=
  Real.sqrt (ssrOf yTest yPred / (yTest.length : ℝ))

/-- `y_pred = model.predict(x_test)` (line 732). -/
noncomputable def testPreds (d : List Txn) (β : List ℝ) : List ℝ :=
  (testMatrix d).map (dotR β)

/-- The R² the pipeline reports (lines 735-737) for a fitted vector `β`. -/
noncomputable def pipelineR2 (d : List Txn) (β : List ℝ) : ℝ :=
  r2Metric (testTargets d) (testPreds d β)

/-- The RMSE the pipeline reports (line 738) for a fitted vector `β`. -/
noncomputable def pipelineRmse (d : List Txn) (β : List ℝ) : ℝ :=
  rmseMetric (testTargets d) (testPreds d β)

/-- Outcome of the Model Analysis tab: either the not-enough-data warning, or a
trained model context (schema and split). -/
inductive ModelOutcome where
  | notEnoughData
  | trained (schema : List Col) (trainIdx testIdx : List Nat)
  deriving DecidableEq

/-- The Model Analysis tab control flow (lines 653-669): after the split, the
guard `if x_train.empty or y_train.empty` (line 664) — equivalent to the train
index list being empty, since `x_train` always has the `const` column — either
shows the warning or proceeds to fit. -/
def modelTab (d : List Txn) : ModelOutcome :=
  if (trainIdxOf d.length).isEmpty then .notEnoughData
  else .trained (trainSchema d) (trainIdxOf d.length) (testIdxOf d.length)

/-- The sidebar filter state (lines 136-154). -/
structure Filters where
  startOrd : Nat
  endOrd : Nat
  coffees : List String
  cashTypes : List String
  seasons : List String
  times : List String
  deriving DecidableEq

/-- The filter pipeline of lines 139 and 156-159: date range, then coffee
names, payment types, seasons (the load-time `get_season` labels) and
time-of-day buckets, each by membership in the selected set. -/
def applyFilters (d : List Txn) (fl : Filters) : List Txn :=
  ((((d.filter fun r => decide (fl.startOrd ≤ r.dateOrd ∧ r.dateOrd ≤ fl.endOrd)).filter
    fun r => decide (r.coffee_name ∈ fl.coffees)).filter
    fun r => decide (r.cash_type ∈ fl.cashTypes)).filter
    fun r => decide (get_season r.month ∈ fl.seasons)).filter
    fun r => decide (r.timeOfDay ∈ fl.times)

/-- Outcome of a dashboard refresh: the no-data warning (lines 161-163, which
returns before any tab is built), or the rendered content. -/
inductive DashOutcome where
  | noData
  | content (rows : List Txn) (model : ModelOutcome)
  deriving DecidableEq

/-- `create_dashboard` control flow: filter, guard on the empty filtered set
(lines 161-163), then build the tabs.  The Model Analysis tab works on
`df_model = df.copy()` (line 612) — the UNFILTERED loaded dataframe — which is
why `modelTab` receives `d` and not the filtered rows. -/
def dashboard (d : List Txn) (fl : Filters) : DashOutcome :=
  if (applyFilters d fl).isEmpty then .noData
  else .content (applyFilters d fl) (modelTab d)

/-- The model the dashboard trains as a function of the loaded data and the
filter selection.  Line 612 (`df_model = df.copy()`) makes the Model Analysis
tab read the unfiltered `df`, so the filter argument is ignored. -/
def dashboardModel (d : List Txn) (_fl : Filters) : ModelOutcome := modelTab d

/-- Prediction output (lines 685-728): only produced in the trained branch;
skipped entirely when the guard of line 664 fires. -/
noncomputable def predOutput (d : List Txn) (β : List ℝ) (inp : PredInput) : Option ℝ :=
  match modelTab d with
  | .notEnoughData => none
  | .trained _ _ _ => some (predictAmount d β inp)

/-- Evaluation output (lines 731-741): only produced in the trained branch;
skipped entirely when the guard of line 664 fires. -/
noncomputable def evalOutput (d : List Txn) (β : List ℝ) : Option (ℝ × ℝ) :=
  match modelTab d with
  | .notEnoughData => none
  | .trained _ _ _ => some (pipelineR2 d β, pipelineRmse d β)

/-- Helper to build concrete example rows: all categorical fields constant so
that no one-hot column survives `drop_first`. -/
def mkTxn (h w mo : Nat) (m : ℚ) : Txn :=
  ⟨0, "Latte", "card", "Morning", m, h, w, mo, 2024⟩

/-- A concrete five-row dataset.  Each numeric column takes the values
(m+1, m+1, m-1, m-1, m) in some order, so its whole-dataset mean is m and its
sample variance is exactly 1 (hence std 1 and rational standardized entries).
All months lie in one season and all categorical values coincide, so the
training schema is exactly [const, hour, day_of_week, month]. -/
def ex5data : List Txn :=
  [mkTxn 13 4 8 0, mkTxn 13 2 6 0, mkTxn 11 4 6 0, mkTxn 11 2 8 0, mkTxn 12 3 7 1]

/-- An exact-interpolation OLS fit for the train partition of `ex5data`
(train rows are indices [3, 0, 4, 1] under the modelled seed-42 permutation). -/
noncomputable def ex2beta : List ℝ :=
  [Real.log 2, -Real.log 2, Real.log 2, -Real.log 2]

/-- A prediction input reachable from the dashboard widgets for `ex5data`
(month and weekday among the observed values, hour from the 0-23 slider). -/
def ex2input : PredInput := ⟨"Latte", "card", "Morning", 2024, 8, 2, 23⟩

/-- Rows and filters for claim C1: a two-row dataset filtered down to one row,
versus the one-row dataset with a vacuous filter — identical filtered subsets,
different model-training inputs. -/
def exC1rowA : Txn := ⟨5, "Latte", "card", "Morning", 3, 10, 2, 6, 2024⟩

/-- Second row for the claim C1 dataset (a different coffee). -/
def exC1rowB : Txn := ⟨5, "Mocha", "card", "Morning", 4, 11, 3, 6, 2024⟩

/-- Claim C1: the two-row loaded dataset. -/
def exC1d : List Txn := [exC1rowA, exC1rowB]

/-- Claim C1: the one-row loaded dataset (equal to the filtered subset). -/
def exC1d2 : List Txn := [exC1rowA]

/-- Claim C1: filter selecting only the Latte row. -/
def exC1f : Filters :=
  ⟨0, 10, ["Latte"], ["card"], ["Winter", "Spring", "Summer", "Fall"], ["Morning"]⟩

/-- Claim C1: the select-everything filter for the one-row dataset. -/
def exC1f2 : Filters :=
  ⟨0, 10, ["Latte", "Mocha"], ["card"], ["Winter", "Spring", "Summer", "Fall"], ["Morning"]⟩

/-- Claim C7 witness: a filter whose coffee-name selection is empty. -/
def exC7f : Filters :=
  ⟨0, 10, [], ["card"], ["Winter", "Spring", "Summer", "Fall"], ["Morning"]⟩

/-- Claim C9 witness: a prediction input whose coffee name was never observed. -/
def exC9input : PredInput := ⟨"Espresso", "card", "Morning", 2024, 8, 2, 12⟩

/-- Claim C10 witness: a prediction input paying by card. -/
def exC10a : PredInput := ⟨"Latte", "card", "Morning", 2024, 8, 2, 12⟩

/-- Claim C10 witness: the same prediction input paying by cash. -/
def exC10b : PredInput := ⟨"Latte", "cash", "Morning", 2024, 8, 2, 12⟩

/-- A generic prediction input used by witnesses. -/
def exPredInput : PredInput := ⟨"Latte", "card", "Morning", 2024, 8, 2, 12⟩


/-! ### Helper lemmas -/

/-- Selecting an element and the remainder is a permutation of the pool. -/
theorem getD_cons_eraseIdx_perm (l : List Nat) (j : Nat) (h : j < l.length) :
    (l.getD j 0 :: l.eraseIdx j).Perm l := by
  rw [List.getD_eq_getElem l 0 h, List.eraseIdx_eq_take_drop_succ]
  have h2 : l.take j ++ l[j] :: l.drop (j + 1) = l := by
    rw [List.getElem_cons_drop]
    exact List.take_append_drop j l
  have hp : (l[j] :: (l.take j ++ l.drop (j + 1))).Perm (l.take j ++ l[j] :: l.drop (j + 1)) :=
    List.perm_middle.symm
  rw [h2] at hp
  exact hp

/-- The modelled draw produces a permutation of its pool. -/
theorem drawPerm_perm : ∀ (fuel s : Nat) (pool : List Nat),
    pool.length = fuel → (drawPerm fuel s pool).Perm pool := by
  intro fuel
  induction fuel with
  | zero =>
    intro s pool h
    have hnil : pool = [] := List.eq_nil_of_length_eq_zero h
    simp [drawPerm, hnil]
  | succ n ih =>
    intro s pool h
    have hlen : 0 < pool.length := by omega
    have hj : lcgNext s % pool.length < pool.length := Nat.mod_lt _ hlen
    have herase : (pool.eraseIdx (lcgNext s % pool.length)).length = n := by
      rw [List.length_eraseIdx]
      simp only [hj, if_true]
      omega
    exact ((ih (lcgNext s) _ herase).cons _).trans (getD_cons_eraseIdx_perm pool _ hj)

/-- The modelled seeded permutation is a permutation of `range n`. -/
theorem npPermutation_perm (seed n : Nat) : (npPermutation seed n).Perm (List.range n) :=
  drawPerm_perm n seed _ (List.length_range n)

/-- The modelled seeded permutation has length `n`. -/
theorem npPermutation_length (seed n : Nat) : (npPermutation seed n).length = n := by
  rw [(npPermutation_perm seed n).length_eq, List.length_range]

/-- The train share is at most the row count. -/
theorem train_size_le (n : Nat) : train_size n ≤ n := by
  unfold train_size
  omega

/-- A sum of pairwise nonnegative combinations is nonnegative. -/
theorem sum_zipWith_nonneg {α β : Type} (g : α → β → ℝ) (hg : ∀ a b, 0 ≤ g a b) :
    ∀ (l₁ : List α) (l₂ : List β), 0 ≤ (List.zipWith g l₁ l₂).sum := by
  intro l₁
  induction l₁ with
  | nil => intro l₂; simp
  | cons a l ih =>
    intro l₂
    cases l₂ with
    | nil => simp
    | cons b l₂ => simpa using add_nonneg (hg a b) (ih l₂)

/-- A residual sum of squares is nonnegative. -/
theorem rssR_nonneg (X : List (List ℝ)) (ys : List ℝ) (β : List ℝ) : 0 ≤ rssR X ys β :=
  sum_zipWith_nonneg _ (fun _ _ => sq_nonneg _) X ys

/-- The metric `ssr` is a nonnegative quantity. -/
theorem ssrOf_nonneg (yTest yPred : List ℝ) : 0 ≤ ssrOf yTest yPred := by
  apply List.sum_nonneg
  intro x hx
  obtain ⟨y, _, rfl⟩ := List.mem_map.mp hx
  exact sq_nonneg y

/-- Every dummy column of a dummy block carries that block's field name. -/
theorem mem_dummyColsFor {d : List Txn} {f : String} {c : Col}
    (h : c ∈ dummyColsFor d f) : ∃ v, c = Col.dummy f v := by
  unfold dummyColsFor at h
  obtain ⟨v, _, rfl⟩ := List.mem_map.mp h
  exact ⟨v, rfl⟩

/-- A dummy column in the training schema has one of the four encoded fields. -/
theorem mem_trainSchema_dummy {d : List Txn} {f v : String}
    (h : Col.dummy f v ∈ trainSchema d) : f ∈ catFields := by
  unfold trainSchema at h
  rcases List.mem_cons.mp h with hc | hc
  · exact absurd hc (by simp)
  · have hraw : Col.dummy f v ∈ rawCombinedCols d := (List.mem_filter.mp hc).1
    unfold rawCombinedCols at hraw
    rcases List.mem_append.mp hraw with hn | hcat
    · obtain ⟨g, _, hg⟩ := List.mem_map.mp hn
      exact absurd hg (by simp)
    · obtain ⟨f', hf', hmem⟩ := List.mem_flatMap.mp hcat
      obtain ⟨v', hv'⟩ := mem_dummyColsFor hmem
      cases hv'
      exact hf'

/-- The training schema never contains a `cash_type` indicator column:
`cash_type` is not among `categorical_cols` (line 629). -/
theorem trainSchema_no_cash (d : List Txn) (v : String) :
    Col.dummy "cash_type" v ∉ trainSchema d := by
  intro h
  have hf := mem_trainSchema_dummy h
  exact absurd hf (by decide)

/-- The modelled seed-42 permutation splits the five-row example into train
rows [3, 0, 4, 1] and test row [2]. -/
theorem trainIdx_ex5 : trainIdxOf (List.length ex5data) = [3, 0, 4, 1] := by decide

/-- All categorical values of `ex5data` coincide, so after `drop_first` the
schema is intercept plus the three numeric columns. -/
theorem schema_ex5 : trainSchema ex5data =
    [Col.const, Col.num NumFeat.hour, Col.num NumFeat.dayOfWeek, Col.num NumFeat.monthF] := by
  decide

/-- Whole-dataset statistics of the hour column of `ex5data`. -/
theorem featStats_ex5_hour : featStats ex5data NumFeat.hour = (12, 1) := by
  simp [featStats, colVals, ex5data, mkTxn, numVal, meanQ, varSample]
  norm_num

/-- Whole-dataset statistics of the weekday column of `ex5data`. -/
theorem featStats_ex5_dow : featStats ex5data NumFeat.dayOfWeek = (3, 1) := by
  simp [featStats, colVals, ex5data, mkTxn, numVal, meanQ, varSample]
  norm_num

/-- Whole-dataset statistics of the month column of `ex5data`. -/
theorem featStats_ex5_month : featStats ex5data NumFeat.monthF = (7, 1) := by
  simp [featStats, colVals, ex5data, mkTxn, numVal, meanQ, varSample]
  norm_num

/-- The two statistics sites share one definition body. -/
theorem predStats_eq_featStats : @predStats = @featStats := rfl

/-- A standardized entry with unit variance is the plain deviation. -/
theorem stdEntry_var_one (x μ : ℚ) : stdEntry x μ 1 = ((x : ℝ) - (μ : ℝ)) := by
  unfold stdEntry
  rw [Rat.cast_one, Real.sqrt_one, div_one]

/-- The training design matrix of the example, with unit-variance standardized
entries evaluated. -/
theorem trainMatrix_ex5 : trainMatrix ex5data =
    [[1, -1, -1, 1], [1, 1, 1, 1], [1, 0, 0, 0], [1, 1, -1, -1]] := by
  rw [trainMatrix, trainIdx_ex5]
  simp only [List.map_cons, List.map_nil, designRow, schema_ex5, rowEntry,
    featStats_ex5_hour, featStats_ex5_dow, featStats_ex5_month, stdEntry_var_one]
  norm_num [getRow, ex5data, mkTxn, numVal]

/-- The training targets of the example: three zero-money rows and one
money-1 row. -/
theorem trainTargets_ex5 : trainTargets ex5data = [0, 0, Real.log 2, 0] := by
  rw [trainTargets, trainIdx_ex5]
  simp only [List.map_cons, List.map_nil]
  norm_num [getRow, ex5data, mkTxn, log1p, Real.log_one]

/-- `ex2beta` interpolates the training data of the example exactly. -/
theorem rss_ex5_zero : rssR (trainMatrix ex5data) (trainTargets ex5data) ex2beta = 0 := by
  rw [trainMatrix_ex5, trainTargets_ex5]
  simp [rssR, dotR, ex2beta]

/-- The prediction row the pipeline builds for `ex2input` over the example's
schema. -/
theorem predictionRow_ex5 : predictionRow ex5data ex2input = [1, 11, -1, 1] := by
  rw [predictionRow, schema_ex5]
  simp only [List.map_cons, List.map_nil, predVal, predStats_eq_featStats,
    featStats_ex5_hour, featStats_ex5_dow, featStats_ex5_month, stdEntry_var_one]
  norm_num [inputNum, ex2input]

/-! ### Claim theorems -/

/-- C1: the claim says the fitted model is a function of the filtered subset of
transactions (filter runs before engineer/split/fit).  The code instead trains
on the unfiltered `df` (`df_model = df.copy()`, line 612).  Evaluated at a
concrete failing input: the two-row dataset filtered down to its Latte row and
the one-row Latte dataset with a vacuous filter have identical filtered
subsets, yet the Model Analysis tab produces different model states — with the
two-row dataset it trains (on rows excluded by the filter), with the one-row
dataset it degrades to not-enough-data.  Hence the model is not a function of
(filtered subset, seed). -/
theorem C1_model_ignores_filters :
    applyFilters exC1d exC1f = applyFilters exC1d2 exC1f2 ∧
    applyFilters exC1d exC1f = [exC1rowA] ∧
    dashboardModel exC1d exC1f ≠ dashboardModel exC1d2 exC1f2 ∧
    dashboardModel exC1d2 exC1f2 = ModelOutcome.notEnoughData := by
  decide

/-- C2 counterexample: the claim says every fitted model yields a non-negative
predicted amount on every prediction input.  For the concrete dataset
`ex5data`, `ex2beta` is an exact OLS fit of the training partition (zero
residual sum of squares, hence a global minimizer), and the UI-reachable
prediction input `ex2input` (hour 23, weekday 2, month 8) yields the amount
`exp(-12 log 2) - 1 = 2^(-12) - 1 < 0`. -/
theorem C2_counterexample :
    IsOLSFit (trainMatrix ex5data) (trainTargets ex5data) ex2beta ∧
    predictAmount ex5data ex2beta ex2input < 0 := by
  constructor
  · intro β'
    rw [rss_ex5_zero]
    exact rssR_nonneg _ _ _
  · have hdot : dotR ex2beta [1, 11, -1, 1] = -12 * Real.log 2 := by
      simp [dotR, ex2beta]
      ring
    rw [predictAmount, predictionRow_ex5, hdot, expm1]
    have hl : (0 : ℝ) < Real.log 2 := Real.log_pos (by norm_num)
    have hneg : (-12 : ℝ) * Real.log 2 < 0 := by nlinarith
    have hexp := Real.exp_lt_one_iff.mpr hneg
    linarith

/-- C2 amended: the predicted amount `expm1(β · row)` is always finite and
greater than -1 (since `exp` is positive), and it is non-negative exactly when
the fitted linear predictor on the log scale is non-negative — so it can be
negative, but never at or below -1. -/
theorem C2_amended_lower_bound (d : List Txn) (β : List ℝ) (inp : PredInput) :
    -1 < predictAmount d β inp ∧
    (0 ≤ predictAmount d β inp ↔ 0 ≤ dotR β (predictionRow d inp)) := by
  unfold predictAmount expm1
  constructor
  · have h := Real.exp_pos (dotR β (predictionRow d inp))
    linarith
  · rw [sub_nonneg]
    exact Real.one_le_exp_iff

/-- C3 counterexample: the claim says every season-computing site assigns the
same label to the same month.  At month 9 the load-time `get_season` and the
prediction-time computation produce "Fall" while the Model Analysis month map
produces "Autumn". -/
theorem C3_counterexample :
    get_season 9 = "Fall" ∧ predSeason 9 = "Fall" ∧ seasonMap 9 = some "Autumn" ∧
    seasonMap 9 ≠ some (get_season 9) := by
  decide

/-- C3 amended: on every month 1..12 each site is total and is a pure function
of the month with winter = {12,1,2}, spring = {3,4,5}, summer = {6,7,8};
load-time preprocessing and prediction-time encoding agree everywhere (both
label the remaining months "Fall"), while the model feature-building map labels
the remaining months "Autumn" instead. -/
theorem C3_amended_seasons (m : Nat) (h1 : 1 ≤ m) (h2 : m ≤ 12) :
    predSeason m = get_season m ∧
    (seasonMap m).isSome ∧
    ((m = 12 ∨ m = 1 ∨ m = 2) → get_season m = "Winter" ∧ seasonMap m = some "Winter") ∧
    ((m = 3 ∨ m = 4 ∨ m = 5) → get_season m = "Spring" ∧ seasonMap m = some "Spring") ∧
    ((m = 6 ∨ m = 7 ∨ m = 8) → get_season m = "Summer" ∧ seasonMap m = some "Summer") ∧
    ((m = 9 ∨ m = 10 ∨ m = 11) → get_season m = "Fall" ∧ seasonMap m = some "Autumn") := by
  interval_cases m <;> decide

/-- C3 witness: the amended statement evaluated at month 9. -/
theorem C3_amended_witness :
    predSeason 9 = get_season 9 ∧
    (seasonMap 9).isSome ∧
    ((9 = 12 ∨ 9 = 1 ∨ 9 = 2) → get_season 9 = "Winter" ∧ seasonMap 9 = some "Winter") ∧
    ((9 = 3 ∨ 9 = 4 ∨ 9 = 5) → get_season 9 = "Spring" ∧ seasonMap 9 = some "Spring") ∧
    ((9 = 6 ∨ 9 = 7 ∨ 9 = 8) → get_season 9 = "Summer" ∧ seasonMap 9 = some "Summer") ∧
    ((9 = 9 ∨ 9 = 10 ∨ 9 = 11) → get_season 9 = "Fall" ∧ seasonMap 9 = some "Autumn") :=
  C3_amended_seasons 9 (by decide) (by decide)

/-- C4 counterexample: the claim says the standardization statistics are
computed over the 80% train partition.  On `ex5data` the hour column has
whole-dataset statistics (mean 12, variance 1) at both code sites, while the
train partition (rows [3, 0, 4, 1], hours [11, 13, 12, 13]) has mean 49/4 and
variance 11/12 — so neither site uses train-partition statistics. -/
theorem C4_counterexample :
    featStats ex5data NumFeat.hour ≠ trainStatsSpec ex5data NumFeat.hour ∧
    predStats ex5data NumFeat.hour ≠ trainStatsSpec ex5data NumFeat.hour := by
  have htrain : trainColVals ex5data NumFeat.hour = [11, 13, 12, 13] := by decide
  have hspec : trainStatsSpec ex5data NumFeat.hour = (49 / 4, 11 / 12) := by
    rw [trainStatsSpec, htrain]
    simp only [Prod.mk.injEq]
    constructor <;> norm_num [meanQ, varSample]
  have hfeat : featStats ex5data NumFeat.hour = (12, 1) := featStats_ex5_hour
  constructor
  · rw [hfeat, hspec]
    norm_num [Prod.ext_iff]
  · rw [predStats_eq_featStats, hfeat, hspec]
    norm_num [Prod.ext_iff]

/-- C4 amended: both standardization sites — the featurization of line 643 and
the prediction path of lines 716-719 — use the mean and standard deviation of
the numeric column over the WHOLE modeling dataset (computed before the split),
and they agree with each other, so training rows and prediction inputs are
standardized identically; the statistics are just not train-partition
statistics. -/
theorem C4_full_dataset_stats (d : List Txn) (f : NumFeat) (inp : PredInput) (r : Txn) :
    featStats d f = (meanQ (colVals d f), varSample (colVals d f)) ∧
    predStats d f = featStats d f ∧
    predVal d inp (Col.num f) =
      stdEntry (inputNum inp f) (featStats d f).1 (featStats d f).2 ∧
    rowEntry d r (Col.num f) =
      stdEntry (numVal r f) (featStats d f).1 (featStats d f).2 :=
  ⟨rfl, rfl, rfl, rfl⟩

/-- C5: the train/test split is a pure (hence run-to-run deterministic)
function of the row count and the fixed seed 42: the train indices are exactly
the first `int(0.8*n)` entries of the seeded permutation and the test indices
the remainder; together they partition the permutation, which is itself a
permutation of the row indices `0..n-1`; for n = 100 the sizes are 80 and
20. -/
theorem C5_split_deterministic (n : Nat) :
    trainIdxOf n = (npPermutation 42 n).take (train_size n) ∧
    testIdxOf n = (npPermutation 42 n).drop (train_size n) ∧
    (npPermutation 42 n).Perm (List.range n) ∧
    (trainIdxOf n).length = train_size n ∧
    (testIdxOf n).length = n - train_size n ∧
    trainIdxOf n ++ testIdxOf n = npPermutation 42 n ∧
    (n = 100 → (trainIdxOf n).length = 80 ∧ (testIdxOf n).length = 20) := by
  have hlen1 : (trainIdxOf n).length = train_size n := by
    rw [trainIdxOf, List.length_take, npPermutation_length]
    exact min_eq_left (train_size_le n)
  have hlen2 : (testIdxOf n).length = n - train_size n := by
    rw [testIdxOf, List.length_drop, npPermutation_length]
  refine ⟨rfl, rfl, npPermutation_perm 42 n, hlen1, hlen2, List.take_append_drop _ _, ?_⟩
  intro hn
  subst hn
  refine ⟨?_, ?_⟩
  · rw [hlen1]; rfl
  · rw [hlen2]; rfl

/-- C5 witness: the split of a 100-row dataset. -/
theorem C5_split_witness :
    (trainIdxOf 100).length = 80 ∧ (testIdxOf 100).length = 20 :=
  (C5_split_deterministic 100).2.2.2.2.2.2 rfl

/-- C6: whenever the train partition is empty, the Model Analysis tab takes the
guard of line 664 and reports the not-enough-data state; the prediction block
(lines 685-728) and the evaluation block (lines 731-741) both live in the else
branch and are therefore skipped, and no computation is attempted (the
embedding is total, mirroring that the guard prevents the OLS call from ever
seeing an empty design matrix). -/
theorem C6_empty_train_degrades (d : List Txn) (β : List ℝ) (inp : PredInput)
    (h : trainIdxOf d.length = []) :
    modelTab d = ModelOutcome.notEnoughData ∧
    predOutput d β inp = none ∧
    evalOutput d β = none := by
  have hm : modelTab d = ModelOutcome.notEnoughData := by
    simp [modelTab, h]
  exact ⟨hm, by simp [predOutput, hm], by simp [evalOutput, hm]⟩

/-- C6 witness: a one-row dataset has `int(0.8*1) = 0` train rows, so the tab
degrades and prediction and evaluation are skipped. -/
theorem C6_witness :
    trainIdxOf (List.length exC1d2) = [] ∧
    (modelTab exC1d2 = ModelOutcome.notEnoughData ∧
      predOutput exC1d2 [] exPredInput = none ∧
      evalOutput exC1d2 [] = none) :=
  ⟨by decide, C6_empty_train_degrades exC1d2 [] exPredInput (by decide)⟩

/-- C7: whenever the filter selection empties the transaction set, the
dashboard surfaces the no-data state (lines 161-163) and returns before any tab
— including all model computation — is built; in particular an empty
coffee-name selection always produces the no-data state, and the embedding is
total, so no exception is raised. -/
theorem C7_empty_filters_no_data (d : List Txn) (fl : Filters) :
    (applyFilters d fl = [] → dashboard d fl = DashOutcome.noData) ∧
    (fl.coffees = [] → dashboard d fl = DashOutcome.noData) := by
  constructor
  · intro h
    simp [dashboard, h]
  · intro h
    have hempty : applyFilters d fl = [] := by
      unfold applyFilters
      rw [h]
      simp
    simp [dashboard, hempty]

/-- C7 witness: a one-row dataset with an empty coffee selection yields the
no-data state. -/
theorem C7_witness : dashboard exC1d2 exC7f = DashOutcome.noData :=
  (C7_empty_filters_no_data exC1d2 exC7f).2 rfl

/-- C8: the Evaluator of lines 731-741 reports exactly R² = 1 - RSS/TSS with no
clamping (witnessed by a concrete instance where R² is negative), and an RMSE
that is the square root of the mean squared residual; both metrics are computed
on the log-transformed targets `log1p(money)` of the held-out rows — no
`expm1` inverse transform is applied before computing them. -/
theorem C8_metrics (d : List Txn) (β : List ℝ) :
    pipelineR2 d β = 1 - ssrOf (testTargets d) (testPreds d β) / sstOf (testTargets d) ∧
    pipelineRmse d β =
      Real.sqrt (ssrOf (testTargets d) (testPreds d β) / ((testTargets d).length : ℝ)) ∧
    testTargets d = (testIdxOf d.length).map (fun i => log1p (getRow d i).money) ∧
    (∀ ys yp : List ℝ,
      0 ≤ rmseMetric ys yp ∧ rmseMetric ys yp ^ 2 = ssrOf ys yp / (ys.length : ℝ)) ∧
    r2Metric [0, 2] [3, 3] < 0 := by
  refine ⟨rfl, rfl, rfl, ?_, ?_⟩
  · intro ys yp
    refine ⟨Real.sqrt_nonneg _, ?_⟩
    rw [rmseMetric, Real.sq_sqrt]
    exact div_nonneg (ssrOf_nonneg ys yp) (Nat.cast_nonneg _)
  · norm_num [r2Metric, ssrOf, sstOf, meanR]

/-- C9: at prediction time every indicator is guarded by a membership check
against the trained schema, the built row references exactly the trained schema
columns (same length, schema order), and when the input's coffee name matches
no trained indicator column, every coffee indicator of the row stays 0 — the
reference-level behavior; likewise any (field, value) indicator not matching
the input stays 0, and no error is possible (the construction is total). -/
theorem C9_unseen_category_reference (d : List Txn) (inp : PredInput)
    (h : Col.dummy "coffee_name" inp.coffee ∉ trainSchema d) :
    (predictionRow d inp).length = (trainSchema d).length ∧
    (∀ v, Col.dummy "coffee_name" v ∈ trainSchema d →
      predVal d inp (Col.dummy "coffee_name" v) = 0) ∧
    (∀ f v, Col.dummy f v ∈ trainSchema d → inputField inp f ≠ some v →
      predVal d inp (Col.dummy f v) = 0) := by
  refine ⟨List.length_map _ _, ?_, ?_⟩
  · intro v hv
    have hne : v ≠ inp.coffee := by
      intro he
      exact h (he ▸ hv)
    have hval : predVal d inp (Col.dummy "coffee_name" v) =
        if some inp.coffee = some v then 1 else 0 := rfl
    rw [hval, if_neg]
    intro hc
    exact hne (Option.some_injective _ hc).symm
  · intro f v _ hne
    have hval : predVal d inp (Col.dummy f v) =
        if inputField inp f = some v then 1 else 0 := rfl
    rw [hval, if_neg hne]

/-- C9 witness: `ex5data` trains only the constant and numeric columns, so the
coffee name "Espresso" is unseen and all (vacuously, zero) coffee indicators
stay 0; the row still has schema length. -/
theorem C9_witness :
    Col.dummy "coffee_name" exC9input.coffee ∉ trainSchema ex5data ∧
    ((predictionRow ex5data exC9input).length = (trainSchema ex5data).length ∧
      (∀ v, Col.dummy "coffee_name" v ∈ trainSchema ex5data →
        predVal ex5data exC9input (Col.dummy "coffee_name" v) = 0) ∧
      (∀ f v, Col.dummy f v ∈ trainSchema ex5data →
        inputField exC9input f ≠ some v →
        predVal ex5data exC9input (Col.dummy f v) = 0)) :=
  ⟨by decide, C9_unseen_category_reference ex5data exC9input (by decide)⟩

/-- C10: `cash_type` is not among the encoded categorical columns (line 629),
so no `cash_type` indicator exists in the trained schema and the line-696
membership check never fires: two prediction inputs differing only in payment
type produce identical prediction rows and identical predicted amounts, for
every dataset and every coefficient vector. -/
theorem C10_cash_type_independent (d : List Txn) (β : List ℝ) (inp₁ inp₂ : PredInput)
    (hco : inp₁.coffee = inp₂.coffee) (hto : inp₁.timeOfDay = inp₂.timeOfDay)
    (hyr : inp₁.year = inp₂.year) (hmo : inp₁.month = inp₂.month)
    (hdw : inp₁.dayOfWeek = inp₂.dayOfWeek) (hhr : inp₁.hour = inp₂.hour) :
    predictionRow d inp₁ = predictionRow d inp₂ ∧
    predictAmount d β inp₁ = predictAmount d β inp₂ := by
  have hrow : predictionRow d inp₁ = predictionRow d inp₂ := by
    unfold predictionRow
    apply List.map_congr_left
    intro c hc
    cases c with
    | const => rfl
    | num f =>
      cases f <;> simp [predVal, inputNum, hmo, hdw, hhr]
    | dummy f v =>
      have hf : f ∈ catFields := mem_trainSchema_dummy hc
      have hf' : f = "coffee_name" ∨ f = "Time_of_Day" ∨ f = "Year" ∨ f = "Season" := by
        simpa [catFields] using hf
      rcases hf' with rfl | rfl | rfl | rfl
      · simp [predVal, inputField, hco]
      · simp [predVal, inputField, hto]
      · simp [predVal, inputField, hyr]
      · simp [predVal, inputField, hmo]
  exact ⟨hrow, by unfold predictAmount; rw [hrow]⟩

/-- C10 witness: card versus cash on the example dataset give the same row and
amount. -/
theorem C10_witness :
    predictionRow ex5data exC10a = predictionRow ex5data exC10b ∧
    predictAmount ex5data [] exC10a = predictAmount ex5data [] exC10b :=
  C10_cash_type_independent ex5data [] exC10a exC10b rfl rfl rfl rfl rfl rfl
